import Mathlib

set_option maxRecDepth 4096

/-!
Verification of the chat-session sidebar controller
(`src/app/component/sidebar.tsx`) and the outbound mail helper
(`src/lib/mail.ts`), shallowly embedded in Lean 4.

The React controller state is modelled as an explicit record; each
handler is translated to a pure function from its inputs and the remote
outcome to the state update and the externally visible actions
(network requests issued, callback invocations, user-facing alerts).
JavaScript truthiness on the optional values the code guards with `!x`
is modelled explicitly: `null`/`undefined` (here `none`), the empty
string and the number 0 are falsy.
-/

namespace Sidebar

/-- `interface ChatSession` from sidebar.tsx: `session_id`, nullable
`title`, optional `created_at`. -/
structure ChatSession where
  session_id : Nat
  title : Option String
  created_at : Option String
deriving Repr, DecidableEq

/-- The controller state held in React hooks: `sessions`, `loading`,
`error`, `creating` (`expand` is display-only and carries no claim). -/
structure ControllerState where
  sessions : List ChatSession
  loading : Bool
  error : Option String
  creating : Bool
deriving Repr, DecidableEq

/-- JavaScript truthiness of an optional string: `null`/`undefined` and
`""` are falsy. -/
def strTruthy : Option String → Bool
  | none => false
  | some s => decide (s ≠ "")

/-- JavaScript truthiness of an optional number: `null`/`undefined` and
`0` are falsy. -/
def numTruthy : Option Nat → Bool
  | none => false
  | some n => decide (n ≠ 0)

/-- The response body of `GET /chat/sessions/...` as the code sees it:
either an array of sessions or something that is not an array
(`Array.isArray(res.data)` is the discriminator). -/
inductive ResponseBody where
  | arr (items : List ChatSession)
  | notArr
deriving Repr, DecidableEq

/-- `Array.isArray(res.data) ? res.data : []` in `fetchSessions`. -/
def bodyToList : ResponseBody → List ChatSession
  | .arr items => items
  | .notArr => []

/-- How one `fetchSessions` network call terminates: the axios promise
resolves with a body, rejects with a cancellation (`axios.isCancel`),
or rejects with a real error. -/
inductive FetchOutcome where
  | success (body : ResponseBody)
  | cancelled
  | failure
deriving Repr, DecidableEq

/-- State update performed at the start of `fetchSessions` after the
user guard: `setLoading(true); setError(null)`. -/
def fetchSessionsStart (st : ControllerState) : ControllerState :=
  { st with loading := true, error := none }

/-- State update performed when one `fetchSessions` call terminates,
translated from the try/catch/finally of `fetchSessions`:
on resolution `setSessions(Array.isArray(res.data) ? res.data : [])`;
on a cancellation rejection the catch returns early (no state write);
on a real error `setError("Could not load sessions"); setSessions([])`;
the `finally` block runs `setLoading(false)` in every case. -/
def fetchSessionsComplete (st : ControllerState) : FetchOutcome → ControllerState
  | .success body => { st with sessions := bodyToList body, loading := false }
  | .cancelled => { st with loading := false }
  | .failure =>
      { st with error := some "Could not load sessions", sessions := [], loading := false }

/-- `session.title === "New Chat" || !session.title` in the auto-title
effect: the title is the sentinel, the empty string, or `null`. -/
def titleUnset : Option String → Bool
  | none => true
  | some s => s == "New Chat" || s == ""

/-- One run of the auto-title `useEffect`, translated from the source:
the guard `if (!lastUserMessage || !currentSessionId) return` (falsy:
`null`, `""`, 0); find the session with the current id; if found and
its title is unset, derive `lastUserMessage.slice(0, 40)`, PATCH that
title (first component of the result: the id and title sent, when a
request is issued at all) and map the same title over the local list
(second component). -/
def autoTitleEffect : Option String → Option Nat → List ChatSession →
    Option (Nat × String) × List ChatSession
  | some msg, some cid, sessions =>
      if msg = "" ∨ cid = 0 then (none, sessions)
      else
        match sessions.find? (fun s => s.session_id == cid) with
        | some s =>
            if titleUnset s.title then
              (some (cid, msg.take 40),
               sessions.map (fun s =>
                 if s.session_id == cid then { s with title := some (msg.take 40) } else s))
            else (none, sessions)
        | none => (none, sessions)
  | none, _, sessions => (none, sessions)
  | some _, none, sessions => (none, sessions)

/-- The user message of the worked example in the specification. -/
def exampleMessage : String :=
  "What's the weather tomorrow in Yangon and will it rain all week long"

/-- The session list of the worked example in the specification. -/
def exampleSessions : List ChatSession :=
  [{ session_id := 1, title := none, created_at := none },
   { session_id := 2, title := some "Trip plan", created_at := none }]

/-- A controller instance together with the bookkeeping of its axios
cancel-token generations: `pending` is the generation of the
outstanding fetch holding the current token of `cancelRef` (if any) and
`cancelled` collects the generations whose token has been cancelled but
whose rejection has not yet been observed. -/
structure TraceState where
  ctrl : ControllerState
  nextGen : Nat
  pending : Option Nat
  cancelled : List Nat
deriving Repr, DecidableEq

/-- The observable events of a sequence of `fetchSessions` calls:
`start` is a new call being issued (with the user present), and
`complete gen o` is the fetch of generation `gen` settling with
outcome `o`. -/
inductive Event where
  | start
  | complete (gen : Nat) (o : FetchOutcome)
deriving Repr, DecidableEq

/-- One event of the controller, returning `none` for events the code
and the axios cancel-token semantics make impossible: a fetch holding
the current token cannot settle as cancelled, a superseded fetch can
only settle as a cancellation rejection, and an unknown generation
cannot settle at all.  `start` performs
`cancelRef.current?.cancel("new-request")` on the in-flight fetch,
installs a fresh token, and runs the `setLoading(true); setError(null)`
prologue. -/
def traceStep (ts : TraceState) : Event → Option TraceState
  | .start =>
      some { ctrl := fetchSessionsStart ts.ctrl
             nextGen := ts.nextGen + 1
             pending := some ts.nextGen
             cancelled :=
               match ts.pending with
               | some g => g :: ts.cancelled
               | none => ts.cancelled }
  | .complete gen o =>
      if ts.pending = some gen then
        match o with
        | .cancelled => none
        | _ => some { ts with ctrl := fetchSessionsComplete ts.ctrl o, pending := none }
      else if gen ∈ ts.cancelled then
        match o with
        | .cancelled =>
            some { ts with ctrl := fetchSessionsComplete ts.ctrl .cancelled
                           cancelled := ts.cancelled.erase gen }
        | _ => none
      else none

/-- Run a sequence of events, failing if any event is impossible. -/
def runTrace (ts : TraceState) : List Event → Option TraceState
  | [] => some ts
  | e :: evs =>
      match traceStep ts e with
      | some ts' => runTrace ts' evs
      | none => none

/-- A remote record of `GET /chat/messages/...`. -/
structure RemoteMessage where
  role : String
  content : String
deriving Repr, DecidableEq

/-- The pairs `handleSelect` maps the records to:
`(m) => ({ role: m.role, text: m.content })`. -/
structure ChatMessage where
  role : String
  text : String
deriving Repr, DecidableEq

/-- Outcome of the messages fetch in `handleSelect`: the axios promise
resolves with `res.data` (`none` models a `null` body, as in
`res.data || []`) or rejects. -/
inductive SelectOutcome where
  | success (data : Option (List RemoteMessage))
  | failure
deriving Repr, DecidableEq

/-- `handleSelect`, translated from the source: on resolution map
`(res.data || [])` to role/text pairs and call
`onSelectSession(sessionId, messages)`; on rejection log the error and
call `onSelectSession(sessionId, [])`.  The result lists the callback
invocations performed, in order, as argument pairs. -/
def handleSelect (sessionId : Nat) : SelectOutcome → List (Nat × List ChatMessage)
  | .success data =>
      [(sessionId, (data.getD []).map (fun m => { role := m.role, text := m.content }))]
  | .failure => [(sessionId, [])]

/-- The multipart body POSTed by `handleCreate`:
`formData.append("user_id", userId); formData.append("title", "New Chat")`. -/
structure CreateRequest where
  user_id : String
  title : String
deriving Repr, DecidableEq

/-- Outcome of the POST in `handleCreate`: resolution carrying
`res.data?.session_id` (`none` when the body lacks the field), or
rejection. -/
inductive CreateOutcome where
  | success (session_id : Option Nat)
  | failure
deriving Repr, DecidableEq

/-- The follow-up effects of `handleCreate`: the `await fetchSessions()`
refresh and the `onSelectSession(sid, [])` callback invocation. -/
inductive CreateAction where
  | refresh
  | selectCallback (sessionId : Nat) (messages : List ChatMessage)
deriving Repr, DecidableEq

/-- `handleCreate`, translated from the source: the guard
`if (!userId) return` issues no network call and writes no state;
otherwise the session POST is submitted with the default title
"New Chat", and when `res.data?.session_id` is truthy the handler runs
`await fetchSessions()` and then `onSelectSession(sid, [])`;
`setCreating(true)` on entry is undone by `setCreating(false)` in the
`finally`.  Returns the state after the handler (the refresh's own
state writes are represented by the returned `.refresh` action,
interpreted by the fetch model above), the POSTed request if any, and
the follow-up actions in order. -/
def handleCreate : Option String → ControllerState → CreateOutcome →
    ControllerState × Option CreateRequest × List CreateAction
  | none, st, _ => (st, none, [])
  | some uid, st, outcome =>
      if uid = "" then (st, none, [])
      else
        match outcome with
        | .success (some n) =>
            if n ≠ 0 then
              ({ st with creating := false },
               some { user_id := uid, title := "New Chat" },
               [.refresh, .selectCallback n []])
            else
              ({ st with creating := false },
               some { user_id := uid, title := "New Chat" }, [])
        | .success none =>
            ({ st with creating := false },
             some { user_id := uid, title := "New Chat" }, [])
        | .failure =>
            ({ st with creating := false },
             some { user_id := uid, title := "New Chat" }, [])

/-- The three transcript formats accepted by `handleDownload`. -/
inductive DownloadFormat where
  | pdf
  | docx
  | csv
deriving Repr, DecidableEq

/-- The transcript GET issued by `handleDownload`. -/
structure DownloadRequest where
  sessionId : Nat
  format : DownloadFormat
deriving Repr, DecidableEq

/-- Outcome of the transcript GET. -/
inductive DownloadOutcome where
  | success
  | failure
deriving Repr, DecidableEq

/-- What the user observes from `handleDownload`: the select-a-session
alert, a triggered save of the named file, or the failure alert. -/
inductive DownloadEffect where
  | selectPrompt (message : String)
  | savedFile (fileName : String)
  | failureAlert (message : String)
deriving Repr, DecidableEq

/-- The query-string value of each format. -/
def formatExt : DownloadFormat → String
  | .pdf => "pdf"
  | .docx => "docx"
  | .csv => "csv"

/-- `handleDownload`, translated from the source: the guard
`if (!currentSessionId)` alerts "Please select a chat session to
download." and issues no request; otherwise the transcript GET is
issued, and on resolution the blob is materialized and a link named
after the session id and format is clicked; on rejection the handler
logs and alerts "Failed to download chat history." (no retry).  Returns
the requests issued and the user-visible effect. -/
def handleDownload : Option Nat → DownloadFormat → DownloadOutcome →
    List DownloadRequest × DownloadEffect
  | none, _, _ => ([], .selectPrompt "Please select a chat session to download.")
  | some cid, fmt, outcome =>
      if cid = 0 then ([], .selectPrompt "Please select a chat session to download.")
      else
        match outcome with
        | .success =>
            ([{ sessionId := cid, format := fmt }],
             .savedFile ("chat_session_" ++ toString cid ++ "." ++ formatExt fmt))
        | .failure =>
            ([{ sessionId := cid, format := fmt }],
             .failureAlert "Failed to download chat history.")

end Sidebar

namespace Mail

/-- `Number(process.env.MAIL_PORT || 587)` in the transporter
configuration of mail.ts: an unset or empty `MAIL_PORT` falls back to
587; a non-numeric value (JavaScript `NaN`) is modelled as `none`. -/
def transporterPort : Option String → Option Nat
  | none => some 587
  | some s => if s = "" then some 587 else s.toNat?

/-- The message object `sendEmail` hands to `transporter.sendMail`:
`from` (here `fromAddress`, since `from` is reserved in Lean) is always
`process.env.MAIL_FROM`; `to` (here `toAddress`, likewise reserved),
`subject`, `text` and the optional `html` come from the arguments. -/
structure MailMessage where
  fromAddress : Option String
  toAddress : String
  subject : String
  text : String
  html : Option String
deriving Repr, DecidableEq

/-- `sendEmail(to, subject, text, html?)` from mail.ts, as the message
it submits; the environment's `MAIL_FROM` is passed explicitly. -/
def sendEmail (envMailFrom : Option String) (toAddress subject text : String)
    (html : Option String) : MailMessage :=
  { fromAddress := envMailFrom, toAddress := toAddress, subject := subject,
    text := text, html := html }

end Mail

namespace Sidebar

lemma traceStep_cancelled_preserves (ts ts' : TraceState) (gen : Nat)
    (h : traceStep ts (.complete gen .cancelled) = some ts') :
    ts'.ctrl.sessions = ts.ctrl.sessions ∧ ts'.ctrl.error = ts.ctrl.error := by
  unfold traceStep at h
  by_cases hp : ts.pending = some gen
  · simp [hp] at h
  · by_cases hc : gen ∈ ts.cancelled
    · simp [hp, hc] at h
      cases h
      exact ⟨rfl, rfl⟩
    · simp [hp, hc] at h

lemma autoTitleEffect_skips (msg : String) (cid : Nat) (sessions : List ChatSession)
    (s : ChatSession)
    (hfind : sessions.find? (fun t => t.session_id == cid) = some s)
    (hcustom : titleUnset s.title = false) :
    autoTitleEffect (some msg) (some cid) sessions = (none, sessions) := by
  unfold autoTitleEffect
  dsimp only
  by_cases hguard : msg = "" ∨ cid = 0
  · rw [if_pos hguard]
  · rw [if_neg hguard, hfind]
    dsimp only
    rw [if_neg (by simp [hcustom])]

lemma autoTitle_example_eval :
    autoTitleEffect (some exampleMessage) (some 1) exampleSessions =
      (some (1, "What's the weather tomorrow in Yangon an"),
       [{ session_id := 1, title := some "What's the weather tomorrow in Yangon an",
          created_at := none },
        { session_id := 2, title := some "Trip plan", created_at := none }]) := by
  decide

/-- C1: In every valid event sequence of one controller instance, only
the most recently issued `fetchSessions` call can deliver a result:
(a) a run consisting of swallowed cancellation rejections never changes
`sessions` and never changes `error` — so a swallowed cancellation
never sets an error and never clears a list populated by a later
successful fetch; (b) a superseded fetch (one whose token was
cancelled) cannot settle with a success or a real failure; (c) issuing
a new call cancels the earlier in-flight fetch. -/
theorem fetchSessions_last_call_wins (ts ts' : TraceState) (evs : List Event)
    (hcancel : ∀ e ∈ evs, ∃ g, e = Event.complete g FetchOutcome.cancelled)
    (hrun : runTrace ts evs = some ts') :
    (ts'.ctrl.sessions = ts.ctrl.sessions ∧ ts'.ctrl.error = ts.ctrl.error) ∧
    (∀ g o, ts.pending ≠ some g → g ∈ ts.cancelled → o ≠ FetchOutcome.cancelled →
        traceStep ts (Event.complete g o) = none) ∧
    (∀ g ts₂, ts.pending = some g → traceStep ts Event.start = some ts₂ →
        g ∈ ts₂.cancelled) := by
  refine ⟨?_, ?_, ?_⟩
  · induction evs generalizing ts with
    | nil =>
        simp [runTrace] at hrun
        rw [hrun]
        exact ⟨rfl, rfl⟩
    | cons e evs ih =>
        obtain ⟨g, rfl⟩ := hcancel e (by simp)
        simp only [runTrace] at hrun
        cases hstep : traceStep ts (Event.complete g FetchOutcome.cancelled) with
        | none => rw [hstep] at hrun; simp at hrun
        | some ts₁ =>
            rw [hstep] at hrun
            have h₁ := traceStep_cancelled_preserves ts ts₁ g hstep
            have h₂ := ih ts₁ (fun e he => hcancel e (by simp [he])) hrun
            exact ⟨h₂.1.trans h₁.1, h₂.2.trans h₁.2⟩
  · intro g o hp hc ho
    unfold traceStep
    cases o with
    | success body => simp [hp, hc]
    | cancelled => exact absurd rfl ho
    | failure => simp [hp, hc]
  · intro g ts₂ hp hstep
    unfold traceStep at hstep
    cases hstep
    simp [hp]

/-- Witness for C1: the theorem applied at a concrete instance — a
controller whose latest fetch already populated the list with one
session and whose superseded generation 0 then rejects as a
cancellation; the populated list and the absent error survive. -/
theorem fetchSessions_last_call_wins_witness :
    ({ ctrl := { sessions := [{ session_id := 1, title := some "Trip plan",
                                created_at := none }],
                 loading := false, error := none, creating := false }
       nextGen := 2, pending := none, cancelled := [] } :
       TraceState).ctrl.sessions =
      [{ session_id := 1, title := some "Trip plan", created_at := none }] ∧
    ({ ctrl := { sessions := [{ session_id := 1, title := some "Trip plan",
                                created_at := none }],
                 loading := false, error := none, creating := false }
       nextGen := 2, pending := none, cancelled := [] } :
       TraceState).ctrl.error = none := by
  have h := fetchSessions_last_call_wins
    { ctrl := { sessions := [{ session_id := 1, title := some "Trip plan",
                               created_at := none }],
                loading := false, error := none, creating := false }
      nextGen := 2, pending := none, cancelled := [0] }
    { ctrl := { sessions := [{ session_id := 1, title := some "Trip plan",
                               created_at := none }],
                loading := false, error := none, creating := false }
      nextGen := 2, pending := none, cancelled := [] }
    [Event.complete 0 FetchOutcome.cancelled]
    (by simp) (by decide)
  exact h.1

/-- C2: The auto-title effect issues a patch only when the last user
message and the current session id are both truthy and the session
found with that id has an absent, empty, or "New Chat" title; when the
found session carries any other non-empty title, no patch is issued and
the local list is unchanged. -/
theorem autoTitle_fires_only_when_unset
    (msg : Option String) (cid : Option Nat) (sessions : List ChatSession) :
    ((autoTitleEffect msg cid sessions).1.isSome = true →
      ∃ m c s, msg = some m ∧ m ≠ "" ∧ cid = some c ∧ c ≠ 0 ∧
        sessions.find? (fun t => t.session_id == c) = some s ∧
        titleUnset s.title = true) ∧
    (∀ c s, cid = some c →
        sessions.find? (fun t => t.session_id == c) = some s →
        titleUnset s.title = false →
        (autoTitleEffect msg cid sessions).1 = none ∧
        (autoTitleEffect msg cid sessions).2 = sessions) := by
  constructor
  · intro hsome
    cases msg with
    | none => simp [autoTitleEffect] at hsome
    | some m =>
      cases cid with
      | none => simp [autoTitleEffect] at hsome
      | some c =>
        unfold autoTitleEffect at hsome
        dsimp only at hsome
        by_cases hguard : m = "" ∨ c = 0
        · rw [if_pos hguard] at hsome; simp at hsome
        · rw [if_neg hguard] at hsome
          cases hfind : sessions.find? (fun t => t.session_id == c) with
          | none => rw [hfind] at hsome; simp at hsome
          | some s =>
            rw [hfind] at hsome
            dsimp only at hsome
            by_cases hunset : titleUnset s.title = true
            · push_neg at hguard
              exact ⟨m, c, s, rfl, hguard.1, rfl, hguard.2, hfind, hunset⟩
            · rw [if_neg hunset] at hsome; simp at hsome
  · intro c s hcid hfind hcustom
    subst hcid
    cases msg with
    | none => exact ⟨rfl, rfl⟩
    | some m => rw [autoTitleEffect_skips m c sessions s hfind hcustom]; exact ⟨rfl, rfl⟩

/-- Witness for C2: the theorem applied at a concrete instance — with
session 2 of the example list carrying the custom title "Trip plan",
a message targeting it issues no patch and changes nothing. -/
theorem autoTitle_fires_only_when_unset_witness :
    (autoTitleEffect (some "hello") (some 2) exampleSessions).1 = none ∧
    (autoTitleEffect (some "hello") (some 2) exampleSessions).2 = exampleSessions :=
  (autoTitle_fires_only_when_unset (some "hello") (some 2) exampleSessions).2
    2 { session_id := 2, title := some "Trip plan", created_at := none }
    rfl (by decide) (by decide)

/-- C3 counterexample: on the worked example, the derived title is not
the string the claim names — "What's the weather tomorrow in Yangon a"
has 39 characters, not 40, and the code's `slice(0, 40)` keeps one more
character. -/
theorem autoTitle_example_title_ne_claimed :
    40 < exampleMessage.length ∧
    String.length "What's the weather tomorrow in Yangon a" = 39 ∧
    (autoTitleEffect (some exampleMessage) (some 1) exampleSessions).1 ≠
      some (1, "What's the weather tomorrow in Yangon a") := by
  decide

/-- C3 (amended): for every user message longer than 40 characters the
auto-derived title is exactly the message's first 40 characters; every
session whose id differs from the current one keeps its entry; and on
the worked example the matched session's title becomes the 40-character
prefix "What's the weather tomorrow in Yangon an" while session 2 is
untouched. -/
theorem autoTitle_truncates_to_first_40
    (msg : String) (cid : Nat) (sessions : List ChatSession)
    (h : 40 < msg.length) :
    (∀ p, (autoTitleEffect (some msg) (some cid) sessions).1 = some p →
        p.2 = msg.take 40 ∧ p.2.length = 40) ∧
    (∀ s ∈ sessions, s.session_id ≠ cid →
        s ∈ (autoTitleEffect (some msg) (some cid) sessions).2) ∧
    autoTitleEffect (some exampleMessage) (some 1) exampleSessions =
      (some (1, "What's the weather tomorrow in Yangon an"),
       [{ session_id := 1, title := some "What's the weather tomorrow in Yangon an",
          created_at := none },
        { session_id := 2, title := some "Trip plan", created_at := none }]) := by
  have hlen : (msg.take 40).length = 40 := by
    rw [String.length, String.data_take, List.length_take]
    rw [String.length] at h
    omega
  refine ⟨?_, ?_, autoTitle_example_eval⟩
  · intro p hp
    unfold autoTitleEffect at hp
    dsimp only at hp
    by_cases hguard : msg = "" ∨ cid = 0
    · rw [if_pos hguard] at hp; simp at hp
    · rw [if_neg hguard] at hp
      cases hfind : sessions.find? (fun t => t.session_id == cid) with
      | none => rw [hfind] at hp; simp at hp
      | some s =>
        rw [hfind] at hp
        dsimp only at hp
        by_cases hunset : titleUnset s.title = true
        · rw [if_pos hunset] at hp
          dsimp only at hp
          have hp2 : p = (cid, msg.take 40) := (Option.some_inj.mp hp).symm
          subst hp2
          constructor
          · simp only
          · simpa using hlen
        · rw [if_neg hunset] at hp; simp at hp
  · intro s hs hne
    unfold autoTitleEffect
    dsimp only
    by_cases hguard : msg = "" ∨ cid = 0
    · rw [if_pos hguard]; simpa using hs
    · rw [if_neg hguard]
      cases hfind : sessions.find? (fun t => t.session_id == cid) with
      | none => simpa using hs
      | some s' =>
        dsimp only
        by_cases hunset : titleUnset s'.title = true
        · rw [if_pos hunset]
          dsimp only
          have heq : s = (fun t : ChatSession =>
              if (t.session_id == cid) = true then
                { t with title := some (msg.take 40) } else t) s := by
            simp [hne]
          rw [heq]
          exact List.mem_map_of_mem _ hs
        · rw [if_neg hunset]; simpa using hs

/-- Witness for C3 (amended): the theorem applied at the worked
example, whose message is 68 characters long. -/
theorem autoTitle_truncates_to_first_40_witness :
    autoTitleEffect (some exampleMessage) (some 1) exampleSessions =
      (some (1, "What's the weather tomorrow in Yangon an"),
       [{ session_id := 1, title := some "What's the weather tomorrow in Yangon an",
          created_at := none },
        { session_id := 2, title := some "Trip plan", created_at := none }]) :=
  (autoTitle_truncates_to_first_40 exampleMessage 1 exampleSessions (by decide)).2.2

/-- C4: `handleSelect` invokes the selection callback exactly once with
the selected session id for every remote outcome, and on failure the
message-list argument is the empty list. -/
theorem handleSelect_callback_once (sessionId : Nat) (outcome : SelectOutcome) :
    (handleSelect sessionId outcome).length = 1 ∧
    (∀ call ∈ handleSelect sessionId outcome, call.1 = sessionId) ∧
    handleSelect sessionId .failure = [(sessionId, [])] := by
  refine ⟨?_, ?_, rfl⟩
  · cases outcome <;> rfl
  · cases outcome <;> simp [handleSelect]

/-- Witness for C4: the theorem applied at session id 3 with a failed
fetch. -/
theorem handleSelect_callback_once_witness :
    (handleSelect 3 SelectOutcome.failure).length = 1 ∧
    handleSelect 3 SelectOutcome.failure = [(3, [])] :=
  ⟨(handleSelect_callback_once 3 SelectOutcome.failure).1,
   (handleSelect_callback_once 3 SelectOutcome.failure).2.2⟩

/-- C5: On a successful `fetchSessions` response the sessions state is
replaced wholesale by the returned collection, and a non-array body is
replaced by the empty list, for every prior state. -/
theorem fetchSessions_success_replaces_sessions :
    ∀ (st : ControllerState) (items : List ChatSession),
      (fetchSessionsComplete st (.success (.arr items))).sessions = items ∧
      (fetchSessionsComplete st (.success .notArr)).sessions = [] := by
  intro st items
  constructor <;> rfl

/-- C6: A non-cancellation failure of `fetchSessions` sets `error` to the
generic message and clears `sessions`; every terminal outcome (success,
real failure, or swallowed cancellation) resets `loading` to false. -/
theorem fetchSessions_failure_sets_error_and_loading_cleared :
    ∀ (st : ControllerState),
      (fetchSessionsComplete st .failure).error = some "Could not load sessions" ∧
      (fetchSessionsComplete st .failure).sessions = [] ∧
      ∀ o : FetchOutcome, (fetchSessionsComplete st o).loading = false := by
  intro st
  refine ⟨rfl, rfl, ?_⟩
  intro o
  cases o with
  | success body => rfl
  | cancelled => rfl
  | failure => rfl

/-- C7: With a user present, `handleCreate` POSTs a creation request
whose title field is exactly "New Chat", and on success (a truthy new
session id) the follow-up is exactly a full `fetchSessions` refresh and
then the selection callback with the new id and an empty message list —
no local append. -/
theorem createSession_posts_new_chat_then_refreshes
    (uid : String) (st : ControllerState) (n : Nat)
    (huid : uid ≠ "") (hn : n ≠ 0) :
    (handleCreate (some uid) st (.success (some n))).2.1 =
      some { user_id := uid, title := "New Chat" } ∧
    (handleCreate (some uid) st (.success (some n))).2.2 =
      [CreateAction.refresh, CreateAction.selectCallback n []] := by
  unfold handleCreate
  dsimp only
  rw [if_neg huid, if_pos hn]
  exact ⟨rfl, rfl⟩

/-- Witness for C7: the theorem applied at user "42" creating session 7
from the initial state. -/
theorem createSession_posts_new_chat_then_refreshes_witness :
    (handleCreate (some "42")
        { sessions := [], loading := false, error := none, creating := false }
        (.success (some 7))).2.1 =
      some { user_id := "42", title := "New Chat" } ∧
    (handleCreate (some "42")
        { sessions := [], loading := false, error := none, creating := false }
        (.success (some 7))).2.2 =
      [CreateAction.refresh, CreateAction.selectCallback 7 []] :=
  createSession_posts_new_chat_then_refreshes "42"
    { sessions := [], loading := false, error := none, creating := false }
    7 (by decide) (by decide)

/-- C8: With no user identity, `handleCreate` issues no network call
(no POST and no follow-up action) and returns every field of the
controller state unchanged. -/
theorem createSession_noop_without_user
    (userId : Option String) (st : ControllerState) (outcome : CreateOutcome)
    (h : strTruthy userId = false) :
    handleCreate userId st outcome = (st, none, []) := by
  cases userId with
  | none => rfl
  | some s =>
      simp only [strTruthy, decide_eq_false_iff_not, not_not] at h
      unfold handleCreate
      dsimp only
      rw [if_pos h]

/-- Witness for C8: the theorem applied with an absent identity and a
populated state. -/
theorem createSession_noop_without_user_witness :
    handleCreate none
        { sessions := [{ session_id := 1, title := none, created_at := none }],
          loading := true, error := some "Could not load sessions", creating := true }
        CreateOutcome.failure =
      ({ sessions := [{ session_id := 1, title := none, created_at := none }],
         loading := true, error := some "Could not load sessions", creating := true },
       none, []) :=
  createSession_noop_without_user none
    { sessions := [{ session_id := 1, title := none, created_at := none }],
      loading := true, error := some "Could not load sessions", creating := true }
    CreateOutcome.failure rfl

/-- C9: With no session selected, `handleDownload` issues no request and
shows the select-a-session prompt; with a session selected and a failed
transcript request, it reports the generic failure alert and issued
exactly the one request (no retry). -/
theorem downloadTranscript_guard_and_failure
    (cid : Option Nat) (fmt : DownloadFormat) (outcome : DownloadOutcome) :
    (numTruthy cid = false →
      handleDownload cid fmt outcome =
        ([], .selectPrompt "Please select a chat session to download.")) ∧
    (∀ c, cid = some c → c ≠ 0 →
      handleDownload cid fmt .failure =
        ([{ sessionId := c, format := fmt }],
         .failureAlert "Failed to download chat history.")) := by
  constructor
  · intro h
    cases cid with
    | none => rfl
    | some c =>
        simp only [numTruthy, decide_eq_false_iff_not, not_not] at h
        unfold handleDownload
        dsimp only
        rw [if_pos h]
  · intro c hc hne
    subst hc
    unfold handleDownload
    dsimp only
    rw [if_neg hne]

/-- Witness for C9: the theorem applied with no selection (pdf) and with
session 7 selected and a failing csv request. -/
theorem downloadTranscript_guard_and_failure_witness :
    handleDownload none DownloadFormat.pdf DownloadOutcome.failure =
      ([], DownloadEffect.selectPrompt "Please select a chat session to download.") ∧
    handleDownload (some 7) DownloadFormat.csv DownloadOutcome.failure =
      ([{ sessionId := 7, format := DownloadFormat.csv }],
       DownloadEffect.failureAlert "Failed to download chat history.") :=
  ⟨(downloadTranscript_guard_and_failure none DownloadFormat.pdf
      DownloadOutcome.failure).1 rfl,
   (downloadTranscript_guard_and_failure (some 7) DownloadFormat.csv
      DownloadOutcome.failure).2 7 rfl (by decide)⟩

end Sidebar

/-- C10: The mail transporter's port is 587 when `MAIL_PORT` is unset or
empty, and every message `sendEmail` submits takes its from-address
from `MAIL_FROM` regardless of the caller's arguments. -/
theorem mail_port_default_and_from_env :
    Mail.transporterPort none = some 587 ∧
    Mail.transporterPort (some "") = some 587 ∧
    ∀ (envMailFrom : Option String) (recipient subject body : String)
      (html : Option String),
      (Mail.sendEmail envMailFrom recipient subject body html).fromAddress =
        envMailFrom := by
  refine ⟨rfl, by decide, fun _ _ _ _ _ => rfl⟩
